import Mathlib

/-!
Verification development for the ritmex-bot swing-strategy core.

The definitions below are a shallow embedding of the TypeScript sources:

* `src/strategy/swing-logic.ts`   — the pure swing decision state machine;
* `src/strategy/swing-engine.ts`  — the engine glue (stop-loss handling,
  spot guard, tick gating);
* `src/strategy/common/binance-depth.ts` — the incremental order-book
  tracker (diff application, bootstrap, resync, imbalance snapshot,
  health report).

Modelling conventions: JavaScript numbers are embedded as `ℚ` (exact
arithmetic; a `Number.isFinite` test on a value that the embedding keeps
as `ℚ` is identically true, while values that the source allows to be
`null`/`NaN` are embedded as `Option ℚ`).  A JavaScript `Map` from
price-string to quantity is embedded as an insertion-ordered association
list keyed by the parsed numeric price (the source consults
`Number(priceRaw)` for every decision; the guard `!priceRaw` together
with `Number.isFinite(price) && price > 0` collapses to `0 < price` over
`ℚ`).  Asynchronous REST fetches are oracles: a list of
`Option DepthSnapshotResponse` results consumed in call order.
-/

namespace RitmexBot

/-! ## Swing logic (`src/strategy/swing-logic.ts`) -/

/-- `SwingDirection` from swing-logic.ts: "long" | "short" | "both". -/
inductive SwingDirection
  | long
  | short
  | both
deriving DecidableEq, Repr

/-- `SwingLogicConfig` from swing-logic.ts. -/
structure SwingLogicConfig where
  direction : SwingDirection
  rsiHigh : ℚ
  rsiLow : ℚ
deriving DecidableEq, Repr

/-- `SwingState` from swing-logic.ts; `prevRsi : number | null` is `Option ℚ`. -/
structure SwingState where
  prevRsi : Option ℚ
  armedShortEntry : Bool
  armedShortExit : Bool
  armedLongEntry : Bool
  armedLongExit : Bool
deriving DecidableEq, Repr

/-- The three action tags of `SwingAction`. -/
inductive SwingActionType
  | OPEN_SHORT
  | OPEN_LONG
  | CLOSE_POSITION
deriving DecidableEq, Repr

/-- `SwingAction` from swing-logic.ts: a tag plus a reason string. -/
structure SwingAction where
  type : SwingActionType
  reason : String
deriving DecidableEq, Repr

/-- `SwingStepInput` from swing-logic.ts.  `rsi : number | null` becomes
`Option ℚ` (`none` covers both `null` and a non-finite reading, which the
source rejects with the same `hasRsi` test). -/
structure SwingStepInput where
  rsi : Option ℚ
  positionAmt : ℚ
  pnl : ℚ
deriving DecidableEq, Repr

/-- `createInitialSwingState` from swing-logic.ts. -/
def createInitialSwingState : SwingState :=
  { prevRsi := none
    armedShortEntry := false
    armedShortExit := false
    armedLongEntry := false
    armedLongExit := false }

/-- `EPS = 1e-8` from swing-logic.ts. -/
def swingEPS : ℚ := 1 / 100000000

/-- `crossUp` from swing-logic.ts. -/
def crossUp (prev : Option ℚ) (next threshold : ℚ) : Bool :=
  match prev with
  | none => false
  | some p => decide (p ≤ threshold) && decide (next > threshold)

/-- `crossDown` from swing-logic.ts. -/
def crossDown (prev : Option ℚ) (next threshold : ℚ) : Bool :=
  match prev with
  | none => false
  | some p => decide (p ≥ threshold) && decide (next < threshold)

/-- Lines 802-814 of the embedded swing-logic.ts (flat position, short
entry leg): clear the arm when shorts are disallowed, else arm on a
cross up through `rsiHigh` and fire `OPEN_SHORT` while armed on a cross
down through `rsiHigh`. -/
def flatShortLeg (prevRsi : Option ℚ) (rsi rsiHigh : ℚ) (allowShort : Bool)
    (s1 : SwingState) : SwingState × List SwingAction :=
  if !allowShort then ({ s1 with armedShortEntry := false }, [])
  else
    let s2 := if crossUp prevRsi rsi rsiHigh then { s1 with armedShortEntry := true } else s1
    if s2.armedShortEntry && crossDown prevRsi rsi rsiHigh then
      ({ s2 with armedShortEntry := false, armedLongEntry := false },
        [⟨SwingActionType.OPEN_SHORT, "RSI armed above high, then crossed below high"⟩])
    else (s2, [])

/-- Lines 816-827 of the embedded swing-logic.ts (flat position, long
entry leg), continuing from the short leg's state and action list. -/
def flatLongLeg (prevRsi : Option ℚ) (rsi rsiLow : ℚ) (allowLong : Bool)
    (acc : SwingState × List SwingAction) : SwingState × List SwingAction :=
  if !allowLong then ({ acc.1 with armedLongEntry := false }, acc.2)
  else
    let s4 := if crossDown prevRsi rsi rsiLow then { acc.1 with armedLongEntry := true } else acc.1
    if s4.armedLongEntry && crossUp prevRsi rsi rsiLow then
      ({ s4 with armedLongEntry := false, armedShortEntry := false },
        acc.2 ++ [⟨SwingActionType.OPEN_LONG, "RSI armed below low, then crossed above low"⟩])
    else (s4, acc.2)

/-- Lines 842-852 of the embedded swing-logic.ts (short position): arm
the short exit on a cross down through `rsiLow`, fire `CLOSE_POSITION`
while armed on a cross up through `rsiLow` with strictly positive pnl. -/
def shortPositionLeg (prevRsi : Option ℚ) (rsi rsiLow pnl : ℚ) (s1 : SwingState) :
    SwingState × List SwingAction :=
  let s2 : SwingState := { s1 with armedLongExit := false }
  let s3 := if crossDown prevRsi rsi rsiLow then { s2 with armedShortExit := true } else s2
  if s3.armedShortExit && crossUp prevRsi rsi rsiLow && decide (pnl > 0) then
    ({ s3 with armedShortExit := false },
      [⟨SwingActionType.CLOSE_POSITION,
        "RSI exit armed below low, then crossed above low with profit"⟩])
  else (s3, [])

/-- Lines 854-864 of the embedded swing-logic.ts (long position),
symmetric to `shortPositionLeg` using `rsiHigh`. -/
def longPositionLeg (prevRsi : Option ℚ) (rsi rsiHigh pnl : ℚ) (s1 : SwingState) :
    SwingState × List SwingAction :=
  let s2 : SwingState := { s1 with armedShortExit := false }
  let s3 := if crossUp prevRsi rsi rsiHigh then { s2 with armedLongExit := true } else s2
  if s3.armedLongExit && crossDown prevRsi rsi rsiHigh && decide (pnl > 0) then
    ({ s3 with armedLongExit := false },
      [⟨SwingActionType.CLOSE_POSITION,
        "RSI exit armed above high, then crossed below high with profit"⟩])
  else (s3, [])

/-- `stepSwing` from swing-logic.ts, returning `(nextState, actions)`.
The mutation sequence of the source is threaded as successive states,
with the four block-level legs factored out above.  Over `ℚ` the
source's `!Number.isFinite(positionAmt)` branch of `isFlat` is vacuous,
so `isFlat`, `isLong`, `isShort` are the pure comparisons. -/
def stepSwing (state : SwingState) (config : SwingLogicConfig) (input : SwingStepInput) :
    SwingState × List SwingAction :=
  match input.rsi with
  | none => (state, [])
  | some rsi =>
    let prevRsi := state.prevRsi
    let allowLong : Bool :=
      decide (config.direction = SwingDirection.long) ||
        decide (config.direction = SwingDirection.both)
    let allowShort : Bool :=
      decide (config.direction = SwingDirection.short) ||
        decide (config.direction = SwingDirection.both)
    let positionAmt := input.positionAmt
    let pnl := input.pnl
    let isFlat : Bool := decide (|positionAmt| ≤ swingEPS)
    let isLong : Bool := decide (positionAmt > swingEPS)
    let isShort : Bool := decide (positionAmt < -swingEPS)
    let s0 : SwingState := { state with prevRsi := some rsi }
    if isFlat then
      let s1 : SwingState := { s0 with armedShortExit := false, armedLongExit := false }
      let longLeg :=
        flatLongLeg prevRsi rsi config.rsiLow allowLong
          (flatShortLeg prevRsi rsi config.rsiHigh allowShort s1)
      if longLeg.2.length > 1 then
        ({ longLeg.1 with armedShortEntry := false, armedLongEntry := false }, [])
      else longLeg
    else
      let s1 : SwingState := { s0 with armedShortEntry := false, armedLongEntry := false }
      if isShort then shortPositionLeg prevRsi rsi config.rsiLow pnl s1
      else if isLong then longPositionLeg prevRsi rsi config.rsiHigh pnl s1
      else (s1, [])

/-! ## Depth tracker (`src/strategy/common/binance-depth.ts`)

The order book (`bidBook`/`askBook`) is a JavaScript `Map` from
price-string to quantity, embedded as an insertion-ordered association
list over the parsed numeric price.  `Map.set` replaces in place or
appends; `Map.delete` removes. -/

/-- One side of the order book: insertion-ordered `(price, qty)` entries
with unique prices, mirroring `Map<string, number>`. -/
abbrev DepthBook := List (ℚ × ℚ)

/-- `Map.set`: replace an existing key in place, else append. -/
def bookSet (book : DepthBook) (price qty : ℚ) : DepthBook :=
  if book.any (fun entry => decide (entry.1 = price)) then
    book.map (fun entry => if entry.1 = price then (price, qty) else entry)
  else book ++ [(price, qty)]

/-- `Map.delete`: remove a key. -/
def bookDelete (book : DepthBook) (price : ℚ) : DepthBook :=
  book.filter (fun entry => decide (entry.1 ≠ price))

/-- `Map.get`-style observation of a book. -/
def bookLookup (book : DepthBook) (price : ℚ) : Option ℚ :=
  (book.find? (fun entry => decide (entry.1 = price))).map Prod.snd

/-- One iteration of `applyLevels` from binance-depth.ts.  The source
rejects a level unless `priceRaw` is truthy, `Number(priceRaw)` is finite
and positive, and `qty` is finite and non-negative; over `ℚ` this is
`0 < price ∧ 0 ≤ qty`.  `qty == 0` deletes, otherwise sets. -/
def applyLevel (book : DepthBook) (level : ℚ × ℚ) : DepthBook :=
  if level.1 ≤ 0 then book
  else if level.2 < 0 then book
  else if level.2 = 0 then bookDelete book level.1
  else bookSet book level.1 level.2

/-- `BinanceDepthTracker.applyLevels`. -/
def applyLevels (book : DepthBook) (levels : List (ℚ × ℚ)) : DepthBook :=
  levels.foldl applyLevel book

/-- `DepthUpdateEvent` from binance-depth.ts (`Number(payload.U)`,
`Number(payload.u)` are natural sequence numbers on the wire). -/
structure DepthUpdateEvent where
  U : ℕ
  u : ℕ
  bids : List (ℚ × ℚ)
  asks : List (ℚ × ℚ)
deriving DecidableEq, Repr

/-- `DepthSnapshotResponse` from binance-depth.ts (a REST depth snapshot;
`fetchDepthSnapshot` validates `lastUpdateId` as finite and positive). -/
structure DepthSnapshotResponse where
  lastUpdateId : ℕ
  bids : List (ℚ × ℚ)
  asks : List (ℚ × ℚ)
deriving DecidableEq, Repr

/-- The mutable order-book fields of `BinanceDepthTracker`. -/
structure DepthState where
  bidBook : DepthBook
  askBook : DepthBook
  localLastUpdateId : ℕ
  orderBookReady : Bool
  eventBuffer : List DepthUpdateEvent
deriving DecidableEq, Repr

/-- Field state at construction time. -/
def initialDepthState : DepthState :=
  { bidBook := []
    askBook := []
    localLastUpdateId := 0
    orderBookReady := false
    eventBuffer := [] }

/-- `BinanceDepthTracker.applyDepthEvent`: returns the `applied` flag and
the (possibly) mutated state.  `!this.localLastUpdateId` is the zero
test. -/
def applyDepthEvent (s : DepthState) (event : DepthUpdateEvent) : Bool × DepthState :=
  if s.localLastUpdateId = 0 then (false, s)
  else if event.u < s.localLastUpdateId then (true, s)
  else if event.U > s.localLastUpdateId + 1 then (false, s)
  else
    (true,
      { s with
        bidBook := applyLevels s.bidBook event.bids
        askBook := applyLevels s.askBook event.asks
        localLastUpdateId := event.u })

/-- `BinanceDepthTracker.resetOrderBook` (clear both books, apply the
snapshot levels, adopt its `lastUpdateId`). -/
def resetOrderBook (s : DepthState) (snapshot : DepthSnapshotResponse) : DepthState :=
  { s with
    bidBook := applyLevels [] snapshot.bids
    askBook := applyLevels [] snapshot.asks
    localLastUpdateId := snapshot.lastUpdateId }

/-- `MAX_BUFFER_SIZE` from binance-depth.ts. -/
def MAX_BUFFER_SIZE : ℕ := 5000

/-- The state effect of `BinanceDepthTracker.handlePayload` on a parsed
depth event: buffer (with cap) while not ready, else apply; a failed
apply marks the book not ready and re-buffers just this event (the
`ensureSynced` call it also makes is asynchronous and is modelled as a
separate `ensureSynced` step). -/
def handleDepthPayload (s : DepthState) (event : DepthUpdateEvent) : DepthState :=
  if s.orderBookReady = false then
    let buffer := s.eventBuffer ++ [event]
    { s with
      eventBuffer :=
        if buffer.length > MAX_BUFFER_SIZE then buffer.drop (buffer.length - MAX_BUFFER_SIZE)
        else buffer }
  else
    let result := applyDepthEvent s event
    if result.1 = false then
      { result.2 with orderBookReady := false, eventBuffer := [event] }
    else result.2

/-- The buffered-replay loop inside `bootstrapOrderBookFromSnapshot`:
apply events in order, stopping at the first failure but keeping the
mutations made so far (the source `break`s out of its `for` loop). -/
def applyBufferedEvents : DepthState → List DepthUpdateEvent → DepthState × Bool
  | s, [] => (s, true)
  | s, event :: rest =>
    let result := applyDepthEvent s event
    if result.1 then applyBufferedEvents result.2 rest else (result.2, false)

/-- `SYNC_SNAPSHOT_MAX_RETRIES` from binance-depth.ts. -/
def SYNC_SNAPSHOT_MAX_RETRIES : ℕ := 5

/-- The retry loop of `BinanceDepthTracker.bootstrapOrderBookFromSnapshot`.
Each attempt consumes one REST fetch result from the oracle list
(`none` = the fetch failed, which makes the source `return`).  A
`continue` keeps any mutations already made, exactly as in the source. -/
def bootstrapLoop : DepthState → List (Option DepthSnapshotResponse) → ℕ → DepthState
  | s, _, 0 => s
  | s, fetches, Nat.succ n =>
    match s.eventBuffer.head? with
    | none => s
    | some firstBuffered =>
      match fetches with
      | [] => s
      | none :: _ => s
      | some snapshot :: rest =>
        if snapshot.lastUpdateId < firstBuffered.U then
          bootstrapLoop s rest n
        else
          let s1 := resetOrderBook s snapshot
          let buffered := s1.eventBuffer.filter (fun e => decide (snapshot.lastUpdateId < e.u))
          match buffered.head? with
          | none => { s1 with orderBookReady := true, eventBuffer := [] }
          | some nextEvent =>
            if nextEvent.U > snapshot.lastUpdateId + 1 ∨ nextEvent.u < snapshot.lastUpdateId + 1 then
              bootstrapLoop s1 rest n
            else
              let replay := applyBufferedEvents s1 buffered
              if replay.2 then { replay.1 with orderBookReady := true, eventBuffer := [] }
              else bootstrapLoop replay.1 rest n

/-- `BinanceDepthTracker.bootstrapOrderBookFromSnapshot`. -/
def bootstrapOrderBookFromSnapshot (s : DepthState)
    (fetches : List (Option DepthSnapshotResponse)) : DepthState :=
  if s.eventBuffer.length = 0 then s
  else bootstrapLoop s fetches SYNC_SNAPSHOT_MAX_RETRIES

/-- `BinanceDepthTracker.refreshOrderBookFromSnapshot` (periodic resync):
replace the book only when the fetched snapshot is at least as new as
the local sequence number. -/
def refreshOrderBookFromSnapshot (s : DepthState)
    (fetch : Option DepthSnapshotResponse) : DepthState :=
  match fetch with
  | none => s
  | some snapshot =>
    if snapshot.lastUpdateId < s.localLastUpdateId then s
    else { resetOrderBook s snapshot with orderBookReady := true }

/-- `BinanceDepthTracker.ensureSynced`: bootstrap while the book is not
ready, otherwise refresh (the refresh path performs one fetch). -/
def ensureSynced (s : DepthState) (fetches : List (Option DepthSnapshotResponse)) : DepthState :=
  if s.orderBookReady = false then bootstrapOrderBookFromSnapshot s fetches
  else refreshOrderBookFromSnapshot s (fetches.headD none)

/-- The tracker states reachable through its own operations: live diff
events (`handlePayload`), synchronisation (`ensureSynced`, covering both
bootstrap and periodic refresh), and the WebSocket open/close/forced
reconnect handlers, each of which clears the buffer and the ready flag
while keeping the books and `localLastUpdateId`. -/
inductive DepthReachable : DepthState → Prop
  | init : DepthReachable initialDepthState
  | live (s : DepthState) (event : DepthUpdateEvent) :
      DepthReachable s → DepthReachable (handleDepthPayload s event)
  | sync (s : DepthState) (fetches : List (Option DepthSnapshotResponse)) :
      DepthReachable s → DepthReachable (ensureSynced s fetches)
  | wsReset (s : DepthState) :
      DepthReachable s → DepthReachable { s with orderBookReady := false, eventBuffer := [] }

/-- The `side` argument of `findBestPrice`. -/
inductive BookSide
  | bid
  | ask
deriving DecidableEq, Repr

/-- `BinanceDepthTracker.findBestPrice`: highest bid / lowest ask among
entries with positive quantity and positive price. -/
def findBestPrice (book : DepthBook) (side : BookSide) : Option ℚ :=
  book.foldl
    (fun (best : Option ℚ) (entry : ℚ × ℚ) =>
      if entry.2 ≤ 0 then best
      else if entry.1 ≤ 0 then best
      else
        match best with
        | none => some entry.1
        | some b =>
          match side with
          | BookSide.bid => if entry.1 > b then some entry.1 else some b
          | BookSide.ask => if entry.1 < b then some entry.1 else some b)
    none

/-- The tracker options consulted by `emitDepthSnapshot`. -/
structure DepthTrackerOptions where
  ratio : Option ℚ
  depthWindowBps : Option ℚ
deriving DecidableEq, Repr

/-- `DEFAULT_DEPTH_WINDOW_BPS` from binance-depth.ts. -/
def DEFAULT_DEPTH_WINDOW_BPS : ℚ := 9

/-- The constant `defaultImbalanceRatio = 2` from binance-depth.ts
(renamed here). -/
def defaultImbalanceRatio : ℚ := 2

/-- The `skipSellSide` formula of `emitDepthSnapshot`. -/
def skipSellSideFlag (buySum sellSum ratio : ℚ) : Bool :=
  decide (sellSum = 0) || decide (buySum > sellSum * ratio)

/-- The `skipBuySide` formula of `emitDepthSnapshot`. -/
def skipBuySideFlag (buySum sellSum ratio : ℚ) : Bool :=
  decide (buySum = 0) || decide (sellSum > buySum * ratio)

/-- The value part of `BinanceDepthSnapshot` computed by
`emitDepthSnapshot` (the timestamp and symbol are ambient). -/
structure EmittedDepthSnapshot where
  buySum : ℚ
  sellSum : ℚ
  skipBuySide : Bool
  skipSellSide : Bool
  imbalance : String
  windowBps : ℚ
  localLastUpdateId : ℕ
deriving DecidableEq, Repr

/-- `BinanceDepthTracker.emitDepthSnapshot`: `none` models the early
`return` (no snapshot published); otherwise the published snapshot. -/
def emitDepthSnapshot (opts : DepthTrackerOptions) (s : DepthState) :
    Option EmittedDepthSnapshot :=
  match findBestPrice s.bidBook BookSide.bid, findBestPrice s.askBook BookSide.ask with
  | some bestBid, some bestAsk =>
    if bestBid ≤ 0 ∨ bestAsk ≤ 0 ∨ bestAsk < bestBid then none
    else
      let windowBps := max 1 (opts.depthWindowBps.getD DEFAULT_DEPTH_WINDOW_BPS)
      let ratio := max (101 / 100) (opts.ratio.getD defaultImbalanceRatio)
      let bidWindowMin := bestBid * (1 - windowBps / 10000)
      let askWindowMax := bestAsk * (1 + windowBps / 10000)
      let buySum :=
        s.bidBook.foldl
          (fun (acc : ℚ) (entry : ℚ × ℚ) => if entry.1 < bidWindowMin then acc else acc + entry.2) 0
      let sellSum :=
        s.askBook.foldl
          (fun (acc : ℚ) (entry : ℚ × ℚ) => if entry.1 > askWindowMax then acc else acc + entry.2) 0
      some
        { buySum := buySum
          sellSum := sellSum
          skipBuySide := skipBuySideFlag buySum sellSum ratio
          skipSellSide := skipSellSideFlag buySum sellSum ratio
          imbalance :=
            if buySum > sellSum * ratio then "buy_dominant"
            else if sellSum > buySum * ratio then "sell_dominant"
            else "balanced"
          windowBps := windowBps
          localLastUpdateId := s.localLastUpdateId }
  | _, _ => none

/-! ## Tracker health (`BinanceDepthTracker.getHealth`) -/

/-- `BinanceConnectionState` from binance-depth.ts. -/
inductive BinanceConnectionState
  | connected
  | disconnected
  | stale
deriving DecidableEq, Repr

/-- The fields of `BinanceDepthTracker` that `getHealth` reads.
`stop()` sets `started := false`, so a stopped tracker is one with
`started = false`.  `dataStale` is the (clock-dependent) value of
`isDataStale()` at the call. -/
structure HealthFields where
  started : Bool
  connectionState : BinanceConnectionState
  orderBookReady : Bool
  restConsecutiveFailures : ℕ
  restLastError : Option String
  dataStale : Bool
  lastEventAt : ℕ
  lastSnapshotAt : ℕ
  lastRestSyncAt : ℕ
  localLastUpdateId : ℕ
deriving DecidableEq, Repr

/-- `BinanceDepthHealth` from binance-depth.ts. -/
structure BinanceDepthHealth where
  started : Bool
  connected : Bool
  orderBookReady : Bool
  restHealthy : Bool
  healthy : Bool
  reason : Option String
  lastEventAt : ℕ
  lastSnapshotAt : ℕ
  lastRestSyncAt : ℕ
  localLastUpdateId : ℕ
deriving DecidableEq, Repr

/-- `REST_FAILURE_DEFENSE_THRESHOLD` from binance-depth.ts. -/
def REST_FAILURE_DEFENSE_THRESHOLD : ℕ := 1

/-- The template-string piece of the `ws_...` reason. -/
def connectionStateName : BinanceConnectionState → String
  | BinanceConnectionState.connected => "connected"
  | BinanceConnectionState.disconnected => "disconnected"
  | BinanceConnectionState.stale => "stale"

/-- `BinanceDepthTracker.getHealth`. -/
def getHealth (s : HealthFields) : BinanceDepthHealth :=
  if s.started = false then
    { started := false
      connected := false
      orderBookReady := false
      restHealthy := true
      healthy := true
      reason := none
      lastEventAt := s.lastEventAt
      lastSnapshotAt := s.lastSnapshotAt
      lastRestSyncAt := s.lastRestSyncAt
      localLastUpdateId := s.localLastUpdateId }
  else
    let restHealthy : Bool := decide (s.restConsecutiveFailures < REST_FAILURE_DEFENSE_THRESHOLD)
    let reason : Option String :=
      if s.connectionState ≠ BinanceConnectionState.connected then
        some ("ws_" ++ connectionStateName s.connectionState)
      else if s.orderBookReady = false then some "orderbook_not_ready"
      else if s.dataStale then some "orderbook_stale"
      else if restHealthy = false then
        some
          (match s.restLastError with
            | some err => "rest_sync_failed:" ++ err
            | none => "rest_sync_failed")
      else none
    { started := true
      connected := decide (s.connectionState = BinanceConnectionState.connected)
      orderBookReady := s.orderBookReady
      restHealthy := restHealthy
      healthy := reason.isNone
      reason := reason
      lastEventAt := s.lastEventAt
      lastSnapshotAt := s.lastSnapshotAt
      lastRestSyncAt := s.lastRestSyncAt
      localLastUpdateId := s.localLastUpdateId }

/-! ## Stop-loss handling (`SwingEngine.handleStopLoss`) -/

/-- Order side. -/
inductive OrderSide
  | BUY
  | SELL
deriving DecidableEq, Repr

/-- `PositionSnapshot` fields consulted by `handleStopLoss`. -/
structure PositionSnapshot where
  positionAmt : ℚ
  entryPrice : ℚ
  markPrice : ℚ
  unrealizedProfit : ℚ
deriving DecidableEq, Repr

/-- The fields of an open order consulted by the `currentStop` search:
the side, the `type` string, and `Number(o.stopPrice)` (`none` when not
finite). -/
structure StopOrderInfo where
  side : OrderSide
  otype : String
  stopPrice : Option ℚ
deriving DecidableEq, Repr

/-- `SwingEngine.lastStopAttempt` (`atTime` embeds the source field
`at`, a reserved word in Lean). -/
structure StopAttempt where
  side : Option OrderSide
  price : Option ℚ
  atTime : ℚ
deriving DecidableEq, Repr

/-- The configuration fields consulted by `handleStopLoss`. -/
structure StopLossSettings where
  stopLossPct : ℚ
  priceTick : ℚ
deriving DecidableEq, Repr

/-- What one `handleStopLoss` call does, read off the source's control
flow: flat position (clear the de-bounce record), missing entry price,
kill-switch market close, an active stop order already exists, duplicate
submission de-bounced, or a `placeStopLossOrder` submission. -/
inductive StopLossOutcome
  | clearedAttempt
  | missingEntryPrice
  | killSwitchClose
  | stopOrderActive
  | debounced
  | placeStop (side : OrderSide) (stopPrice qty : ℚ)
deriving DecidableEq, Repr

/-- `EPS = 1e-5` from swing-engine.ts. -/
def engineEPS : ℚ := 1 / 100000

/-- The `currentStop` search in `handleStopLoss`: an open order on the
stop side that is a `STOP_MARKET` or carries a positive stop price. -/
def hasActiveStopOrder (orders : List StopOrderInfo) (stopSide : OrderSide) : Bool :=
  orders.any fun o =>
    decide (o.side = stopSide) &&
      (decide (o.otype = "STOP_MARKET") ||
        match o.stopPrice with
        | some sp => decide (sp > 0)
        | none => false)

/-- `SwingEngine.handleStopLoss`, as a pure function from its inputs to
the action taken plus the updated `lastStopAttempt` record.
`referencePrice` is the engine's reference (mid or last) and
`tickerLastPrice` the `Number(this.tickerSnapshot?.lastPrice)` fallback;
`now` stands for `Date.now()`.  The `hasEntryPrice` guard
`Number.isFinite(entryPrice) && Math.abs(entryPrice) > 1e-8` is the `ℚ`
comparison `1e-8 < |entryPrice|`. -/
def handleStopLoss (settings : StopLossSettings) (openOrders : List StopOrderInfo)
    (lastStopAttempt : StopAttempt) (now : ℚ) (position : PositionSnapshot)
    (referencePrice : Option ℚ) (tickerLastPrice : Option ℚ) :
    StopLossOutcome × StopAttempt :=
  if |position.positionAmt| ≤ engineEPS then
    (StopLossOutcome.clearedAttempt, { side := none, price := none, atTime := 0 })
  else if |position.entryPrice| ≤ 1 / 100000000 then
    (StopLossOutcome.missingEntryPrice, lastStopAttempt)
  else
    let isLongSide : Bool := decide (position.positionAmt > 0)
    let stopSide := if isLongSide then OrderSide.SELL else OrderSide.BUY
    let stopPrice :=
      if isLongSide then position.entryPrice * (1 - max 0 settings.stopLossPct)
      else position.entryPrice * (1 + max 0 settings.stopLossPct)
    let tick := max (1 / 1000000000) settings.priceTick
    let lastPrice :=
      match referencePrice with
      | some p => some p
      | none => tickerLastPrice
    let triggerKill : Bool :=
      match lastPrice with
      | some lp =>
        if isLongSide then decide (lp ≤ stopPrice + tick) else decide (lp ≥ stopPrice - tick)
      | none => false
    if triggerKill then (StopLossOutcome.killSwitchClose, lastStopAttempt)
    else if hasActiveStopOrder openOrders stopSide then
      (StopLossOutcome.stopOrderActive, lastStopAttempt)
    else
      let debounce : Bool :=
        decide (lastStopAttempt.side = some stopSide) &&
          (match lastStopAttempt.price with
            | some prevPrice => decide (|stopPrice - prevPrice| < tick)
            | none => false) &&
          decide (now - lastStopAttempt.atTime < 5000)
      if debounce then (StopLossOutcome.debounced, lastStopAttempt)
      else
        (StopLossOutcome.placeStop stopSide stopPrice |position.positionAmt|,
          { side := some stopSide, price := some stopPrice, atTime := now })

/-! ## Swing engine state and tick gating (`src/strategy/swing-engine.ts`) -/

/-- The engine configuration fields the modelled operations consult. -/
structure SwingEngineConfig where
  direction : SwingDirection
  rsiHigh : ℚ
  rsiLow : ℚ
deriving DecidableEq, Repr

/-- The mutable engine fields the modelled operations touch: the spot
guard (`disabled`, `lastError`), the readiness inputs, and the swing
state. -/
structure EngineState where
  disabled : Bool
  lastError : Option String
  hasAccount : Bool
  marketType : Option String
  hasTicker : Bool
  hasDepth : Bool
  ordersSnapshotReady : Bool
  rsiStable : Bool
  rsiValue : Option ℚ
  swingState : SwingState
deriving DecidableEq, Repr

/-- Engine field state at construction time. -/
def initialEngineState : EngineState :=
  { disabled := false
    lastError := none
    hasAccount := false
    marketType := none
    hasTicker := false
    hasDepth := false
    ordersSnapshotReady := false
    rsiStable := false
    rsiValue := none
    swingState := createInitialSwingState }

/-- The spot-guard error text from `SwingEngine.bootstrap`. -/
def spotGuardMessage : String :=
  "Swing strategy requires perp/margin for shorting; spot accounts cannot short."

/-- The account-stream handler installed by `SwingEngine.bootstrap`:
record the snapshot, and refuse short mode on spot accounts.  `marketType`
is the `snapshot.marketType` field (`none` when absent). -/
def onAccountSnapshot (cfg : SwingEngineConfig) (s : EngineState)
    (marketType : Option String) : EngineState :=
  let s1 := { s with hasAccount := true, marketType := marketType }
  if marketType = some "spot" ∧
      (cfg.direction = SwingDirection.short ∨ cfg.direction = SwingDirection.both) then
    if s1.disabled = false then
      { s1 with disabled := true, lastError := some spotGuardMessage }
    else s1
  else s1

/-- `SwingEngine.isReady`. -/
def engineIsReady (s : EngineState) : Bool :=
  s.hasAccount && s.hasTicker && s.hasDepth && s.ordersSnapshotReady && s.rsiStable &&
    s.rsiValue.isSome

/-- The decision the rate-limit controller hands to `tick`.

Modelled from the spec: the `RateLimitController` implementation
(`src/core/lib/rate-limit.ts`) is not part of the provided sources; §4.3
of the specification says `beforeCycle()` returns one of
`run | skip | paused` per tick. -/
inductive RateDecision
  | run
  | paused
  | skip
deriving DecidableEq, Repr

/-- What one `tick` did, read off the source's control flow: whether a
snapshot was emitted, whether `stepSwing` was invoked, and whether the
order paths (market open/close, `handleStopLoss`) were reached at all. -/
structure TickEffects where
  emittedSnapshot : Bool
  evaluatedSwing : Bool
  reachedOrderPaths : Bool
deriving DecidableEq, Repr

/-- The per-tick market inputs (position and pnl computed from the
account, depth and ticker snapshots). -/
structure TickOracle where
  positionAmt : ℚ
  pnl : ℚ
deriving DecidableEq, Repr

/-- `SwingEngine.tick`: the guard chain (re-entrancy, rate-limit
decision, `disabled`, readiness) and, in the run path, the `stepSwing`
invocation whose `nextState` is stored.  The order submissions and
`handleStopLoss` of the run path are summarised by
`reachedOrderPaths = true`. -/
def tick (cfg : SwingEngineConfig) (s : EngineState) (processing : Bool)
    (decision : RateDecision) (oracle : TickOracle) : EngineState × TickEffects :=
  if processing then (s, ⟨false, false, false⟩)
  else if decision = RateDecision.paused then (s, ⟨true, false, false⟩)
  else if decision = RateDecision.skip then (s, ⟨false, false, false⟩)
  else if s.disabled then (s, ⟨true, false, false⟩)
  else if engineIsReady s = false then (s, ⟨true, false, false⟩)
  else
    let result :=
      stepSwing s.swingState ⟨cfg.direction, cfg.rsiHigh, cfg.rsiLow⟩
        ⟨s.rsiValue, oracle.positionAmt, oracle.pnl⟩
    ({ s with swingState := result.1 }, ⟨true, true, true⟩)

/-- The engine operations that can touch its mutable fields: the four
subscription handlers, an RSI tracker update, and the timer tick. -/
inductive EngineOp
  | account (marketType : Option String)
  | ordersUpdate
  | depthUpdate
  | tickerUpdate
  | rsiUpdate (stable : Bool) (value : Option ℚ)
  | tickOp (processing : Bool) (decision : RateDecision) (oracle : TickOracle)

/-- One engine operation applied to the engine state. -/
def stepEngine (cfg : SwingEngineConfig) (s : EngineState) : EngineOp → EngineState
  | EngineOp.account marketType => onAccountSnapshot cfg s marketType
  | EngineOp.ordersUpdate => { s with ordersSnapshotReady := true }
  | EngineOp.depthUpdate => { s with hasDepth := true }
  | EngineOp.tickerUpdate => { s with hasTicker := true }
  | EngineOp.rsiUpdate stable value => { s with rsiStable := stable, rsiValue := value }
  | EngineOp.tickOp processing decision oracle => (tick cfg s processing decision oracle).1

/-! ## Derived observations on the depth tracker -/

/-- The last effective operation a list of levels performs on a price:
`none` (price untouched), `some none` (deleted), `some (some q)` (set). -/
def levelsLastOp : List (ℚ × ℚ) → ℚ → Option (Option ℚ)
  | [], _ => none
  | l :: t, p =>
    match levelsLastOp t p with
    | some r => some r
    | none =>
      if l.1 ≤ 0 then none
      else if l.2 < 0 then none
      else if l.1 = p then (if l.2 = 0 then some none else some (some l.2))
      else none

/-- The condition under which `applyDepthEvent` takes its level-applying
branch (as opposed to ignoring the event or reporting a gap). -/
def eventApplies (s : DepthState) (e : DepthUpdateEvent) : Bool :=
  decide (s.localLastUpdateId ≠ 0) && decide (s.localLastUpdateId ≤ e.u) &&
    decide (e.U ≤ s.localLastUpdateId + 1)

/-- Fold a list of diff events through `applyDepthEvent`, keeping only
the state. -/
def applyEventsSeq (s : DepthState) (es : List DepthUpdateEvent) : DepthState :=
  es.foldl (fun t e => (applyDepthEvent t e).2) s

/-- A gap-free sequence: every event in turn takes the level-applying
branch of `applyDepthEvent`. -/
def chainApplies : DepthState → List DepthUpdateEvent → Bool
  | _, [] => true
  | s, e :: rest => eventApplies s e && chainApplies (applyDepthEvent s e).2 rest

/-! ## Concrete runs used by counterexamples and witnesses -/

/-- A ready tracker state with an empty book at sequence number 5. -/
def dupCexState : DepthState := ⟨[], [], 5, true, []⟩

/-- An event with `u = 5` equal to `dupCexState`'s sequence number and a
non-trivial bid level. -/
def dupCexEvent : DepthUpdateEvent := ⟨5, 5, [(1, 2)], []⟩

/-- Diff event buffered before the crossed-book bootstrap. -/
def crossedEvent1 : DepthUpdateEvent := ⟨1, 2, [], []⟩

/-- Bootstrap snapshot for the crossed-book run: bid 100, ask 101. -/
def crossedSnap : DepthSnapshotResponse := ⟨2, [(100, 1)], [(101, 1)]⟩

/-- Live diff event inserting a bid at 102, above the best ask 101. -/
def crossedEvent2 : DepthUpdateEvent := ⟨3, 3, [(102, 1)], []⟩

/-- Tracker run: buffer one event, bootstrap from `crossedSnap`, then
apply `crossedEvent2` live.  Each step is a tracker operation, so the
result is reachable. -/
def crossedDepthState : DepthState :=
  handleDepthPayload (ensureSynced (handleDepthPayload initialDepthState crossedEvent1)
    [some crossedSnap]) crossedEvent2

/-- Event buffered before the first bootstrap of the lowering run. -/
def lowerEvent1 : DepthUpdateEvent := ⟨1, 2, [], []⟩

/-- First snapshot of the lowering run, at sequence number 100. -/
def lowerSnap1 : DepthSnapshotResponse := ⟨100, [(10, 1)], [(11, 1)]⟩

/-- Event buffered after the reconnect of the lowering run. -/
def lowerEvent2 : DepthUpdateEvent := ⟨5, 7, [], []⟩

/-- Second snapshot of the lowering run, at sequence number 8 (valid:
`fetchDepthSnapshot` only requires a positive `lastUpdateId`). -/
def lowerSnap2 : DepthSnapshotResponse := ⟨8, [], []⟩

/-- Tracker run: bootstrap to sequence number 100, lose the WebSocket
(ready flag and buffer cleared, books and sequence number kept), buffer
`lowerEvent2`.  A further bootstrap from `lowerSnap2` lowers
`localLastUpdateId` from 100 to 8. -/
def lowerDepthState : DepthState :=
  handleDepthPayload
    { ensureSynced (handleDepthPayload initialDepthState lowerEvent1) [some lowerSnap1] with
      orderBookReady := false, eventBuffer := [] }
    lowerEvent2

/-- A ready book with bid 100 (quantity 2) and ask 101 (quantity 1). -/
def emitWitnessState : DepthState := ⟨[(100, 2)], [(101, 1)], 3, true, []⟩

/-- A ready book with bid 100 (quantity 5) and ask 101 (quantity 1),
whose buy side dominates at the default ratio. -/
def skewedWitnessState : DepthState := ⟨[(100, 5)], [(101, 1)], 4, true, []⟩

/-- Tracker options leaving both `ratio` and `depthWindowBps` at their
defaults. -/
def defaultDepthOptions : DepthTrackerOptions := ⟨none, none⟩

/-- A short-direction engine configuration. -/
def spotCfg : SwingEngineConfig := ⟨SwingDirection.short, 70, 30⟩

/-- The engine state right after a spot-account snapshot arrives under
the short direction: the spot guard has fired. -/
def spotDisabledState : EngineState := onAccountSnapshot spotCfg initialEngineState (some "spot")

/-! ## Book lookup lemmas -/

theorem bookLookup_cons_pos {e : ℚ × ℚ} {t : DepthBook} {x : ℚ} (h : e.1 = x) :
    bookLookup (e :: t) x = some e.2 := by
  simp [bookLookup, List.find?_cons_of_pos, h]

theorem bookLookup_cons_neg {e : ℚ × ℚ} {t : DepthBook} {x : ℚ} (h : e.1 ≠ x) :
    bookLookup (e :: t) x = bookLookup t x := by
  rw [bookLookup, List.find?_cons_of_neg _ (by simpa using h)]
  rfl

theorem bookLookup_bookDelete (b : DepthBook) (p x : ℚ) :
    bookLookup (bookDelete b p) x = if p = x then none else bookLookup b x := by
  induction b with
  | nil => simp [bookDelete, bookLookup]
  | cons e t ih =>
    by_cases hep : e.1 = p
    · have : bookDelete (e :: t) p = bookDelete t p := by
        simp [bookDelete, List.filter, hep]
      rw [this, ih]
      by_cases hpx : p = x
      · simp [hpx]
      · rw [if_neg hpx, if_neg hpx, bookLookup_cons_neg (by rw [hep]; exact hpx)]
    · have : bookDelete (e :: t) p = e :: bookDelete t p := by
        simp [bookDelete, List.filter, hep]
      rw [this]
      by_cases hex : e.1 = x
      · have hpx : ¬p = x := fun hc => hep (hc ▸ hex)
        rw [bookLookup_cons_pos hex, if_neg hpx, bookLookup_cons_pos hex]
      · rw [bookLookup_cons_neg hex, ih, bookLookup_cons_neg hex]

theorem bookLookup_map_replace_mem (t : DepthBook) (p q : ℚ)
    (h : t.any (fun entry => decide (entry.1 = p)) = true) :
    bookLookup (t.map (fun entry => if entry.1 = p then (p, q) else entry)) p = some q := by
  induction t with
  | nil => simp at h
  | cons e t ih =>
    by_cases hep : e.1 = p
    · simp only [List.map_cons, hep, if_true]
      exact bookLookup_cons_pos rfl
    · simp only [List.map_cons, hep, if_false]
      rw [bookLookup_cons_neg hep]
      apply ih
      simpa [List.any_cons, hep] using h

theorem bookLookup_map_replace_ne (t : DepthBook) (p q x : ℚ) (hpx : p ≠ x) :
    bookLookup (t.map (fun entry => if entry.1 = p then (p, q) else entry)) x =
      bookLookup t x := by
  induction t with
  | nil => rfl
  | cons e t ih =>
    by_cases hep : e.1 = p
    · simp only [List.map_cons, hep, if_true]
      have hex : ¬e.1 = x := fun hc => hpx (hep ▸ hc)
      rw [bookLookup_cons_neg (by simpa using hpx), bookLookup_cons_neg hex, ih]
    · simp only [List.map_cons, hep, if_false]
      by_cases hex : e.1 = x
      · rw [bookLookup_cons_pos hex, bookLookup_cons_pos hex]
      · rw [bookLookup_cons_neg hex, bookLookup_cons_neg hex, ih]

theorem bookLookup_not_mem (t : DepthBook) (p : ℚ)
    (h : t.any (fun entry => decide (entry.1 = p)) = false) :
    bookLookup t p = none := by
  induction t with
  | nil => rfl
  | cons e t ih =>
    simp only [List.any_cons, Bool.or_eq_false_iff, decide_eq_false_iff_not] at h
    rw [bookLookup_cons_neg h.1, ih]
    simpa using h.2

theorem bookLookup_append (l1 l2 : DepthBook) (x : ℚ) :
    bookLookup (l1 ++ l2) x =
      match bookLookup l1 x with
      | some v => some v
      | none => bookLookup l2 x := by
  induction l1 with
  | nil => simp [bookLookup]
  | cons e t ih =>
    by_cases hex : e.1 = x
    · rw [List.cons_append, bookLookup_cons_pos hex, bookLookup_cons_pos hex]
    · rw [List.cons_append, bookLookup_cons_neg hex, bookLookup_cons_neg hex, ih]

theorem bookLookup_bookSet (b : DepthBook) (p q x : ℚ) :
    bookLookup (bookSet b p q) x = if p = x then some q else bookLookup b x := by
  unfold bookSet
  by_cases hany : b.any (fun entry => decide (entry.1 = p)) = true
  · simp only [hany, if_true]
    by_cases hpx : p = x
    · subst hpx
      rw [if_pos rfl, bookLookup_map_replace_mem b p q hany]
    · rw [if_neg hpx, bookLookup_map_replace_ne b p q x hpx]
  · simp only [hany, Bool.false_eq_true, if_false]
    rw [Bool.not_eq_true] at hany
    rw [bookLookup_append]
    by_cases hpx : p = x
    · subst hpx
      rw [bookLookup_not_mem b p hany, if_pos rfl, bookLookup_cons_pos rfl]
    · rw [if_neg hpx]
      cases hb : bookLookup b x with
      | some v => rfl
      | none =>
        rw [bookLookup_cons_neg (by simpa using hpx)]
        rfl

end RitmexBot

namespace RitmexBot

theorem bookLookup_applyLevel (b : DepthBook) (l : ℚ × ℚ) (x : ℚ) :
    bookLookup (applyLevel b l) x =
      if 0 < l.1 ∧ 0 ≤ l.2 ∧ l.1 = x then (if l.2 = 0 then none else some l.2)
      else bookLookup b x := by
  unfold applyLevel
  by_cases h1 : l.1 ≤ 0
  · rw [if_pos h1, if_neg (by rintro ⟨hc, _, _⟩; linarith)]
  · by_cases h2 : l.2 < 0
    · rw [if_neg h1, if_pos h2, if_neg (by rintro ⟨_, hc, _⟩; linarith)]
    · by_cases h3 : l.2 = 0
      · rw [if_neg h1, if_neg h2, if_pos h3, bookLookup_bookDelete]
        by_cases hlx : l.1 = x
        · rw [if_pos hlx, if_pos ⟨by linarith, by linarith, hlx⟩, if_pos h3]
        · rw [if_neg hlx, if_neg (by rintro ⟨_, _, hc⟩; exact hlx hc)]
      · rw [if_neg h1, if_neg h2, if_neg h3, bookLookup_bookSet]
        by_cases hlx : l.1 = x
        · rw [if_pos hlx, if_pos ⟨by linarith, by linarith, hlx⟩, if_neg h3]
        · rw [if_neg hlx, if_neg (by rintro ⟨_, _, hc⟩; exact hlx hc)]

theorem bookLookup_applyLevels (b : DepthBook) (ls : List (ℚ × ℚ)) (x : ℚ) :
    bookLookup (applyLevels b ls) x =
      match levelsLastOp ls x with
      | some r => r
      | none => bookLookup b x := by
  induction ls generalizing b with
  | nil => rfl
  | cons l t ih =>
    rw [show applyLevels b (l :: t) = applyLevels (applyLevel b l) t from rfl, ih]
    cases ht : levelsLastOp t x with
    | some r => simp [levelsLastOp, ht]
    | none =>
      simp only [levelsLastOp, ht]
      rw [bookLookup_applyLevel]
      by_cases h1 : l.1 ≤ 0
      · rw [if_neg (by rintro ⟨hc, _, _⟩; linarith), if_pos h1]
      · by_cases h2 : l.2 < 0
        · rw [if_neg (by rintro ⟨_, hc, _⟩; linarith), if_neg h1, if_pos h2]
        · by_cases hlx : l.1 = x
          · rw [if_pos ⟨by linarith, by linarith, hlx⟩, if_neg h1, if_neg h2, if_pos hlx]
            by_cases h3 : l.2 = 0
            · rw [if_pos h3, if_pos h3]
            · rw [if_neg h3, if_neg h3]
          · rw [if_neg (by rintro ⟨_, _, hc⟩; exact hlx hc), if_neg h1, if_neg h2, if_neg hlx]

theorem applyLevels_idem (b : DepthBook) (ls : List (ℚ × ℚ)) (x : ℚ) :
    bookLookup (applyLevels (applyLevels b ls) ls) x = bookLookup (applyLevels b ls) x := by
  rw [bookLookup_applyLevels, bookLookup_applyLevels]
  cases levelsLastOp ls x <;> rfl

/-! ## Helper lemmas about the swing legs -/

theorem crossUp_eq_true {prev : Option ℚ} {next threshold : ℚ} :
    crossUp prev next threshold = true ↔
      ∃ p, prev = some p ∧ p ≤ threshold ∧ threshold < next := by
  cases prev <;> simp [crossUp, and_comm]

theorem crossDown_eq_true {prev : Option ℚ} {next threshold : ℚ} :
    crossDown prev next threshold = true ↔
      ∃ p, prev = some p ∧ threshold ≤ p ∧ next < threshold := by
  cases prev <;> simp [crossDown, and_comm]

/-- A cross down through one threshold and a cross up through another
cannot happen on the same sample pair. -/
theorem crossDown_crossUp_incompatible {prev : Option ℚ} {next high low : ℚ}
    (hd : crossDown prev next high = true) (hu : crossUp prev next low = true) : False := by
  rcases crossDown_eq_true.mp hd with ⟨p, hp, h1, h2⟩
  rcases crossUp_eq_true.mp hu with ⟨q, hq, h3, h4⟩
  rw [hp] at hq
  injection hq with hpq
  subst hpq
  linarith

theorem shortPositionLeg_length (prevRsi : Option ℚ) (rsi rsiLow pnl : ℚ) (s1 : SwingState) :
    (shortPositionLeg prevRsi rsi rsiLow pnl s1).2.length ≤ 1 := by
  unfold shortPositionLeg
  split_ifs <;> try simp_all
  all_goals (split_ifs <;> simp_all)

theorem longPositionLeg_length (prevRsi : Option ℚ) (rsi rsiHigh pnl : ℚ) (s1 : SwingState) :
    (longPositionLeg prevRsi rsi rsiHigh pnl s1).2.length ≤ 1 := by
  unfold longPositionLeg
  split_ifs <;> try simp_all
  all_goals (split_ifs <;> simp_all)

theorem mem_of_length_le_one {α : Type} {l : List α} (h : l.length ≤ 1) {a b : α}
    (ha : a ∈ l) (hb : b ∈ l) : a = b := by
  match l with
  | [] => cases ha
  | [x] =>
    rw [List.mem_singleton] at ha hb
    rw [ha, hb]
  | x :: y :: t => simp [List.length] at h

theorem notFlat_of_short {a : ℚ} (h : a < -swingEPS) :
    decide (|a| ≤ swingEPS) = false := by
  rw [decide_eq_false_iff_not, abs_le, not_and_or]
  left
  intro hc
  rw [swingEPS] at *
  linarith

theorem notFlat_of_nonflat {a : ℚ} (h : swingEPS < |a|) :
    decide (|a| ≤ swingEPS) = false := by
  rw [decide_eq_false_iff_not]
  exact not_le.mpr h

/-! ## Claim theorems -/

/-- C3: for every input `(state, config, event)`, `stepSwing` returns at
most one action, and in particular never emits both `OPEN_LONG` and
`OPEN_SHORT` in the same call, for any configuration of the `rsiHigh`
and `rsiLow` thresholds. -/
theorem stepSwing_single_action (s : SwingState) (c : SwingLogicConfig) (i : SwingStepInput) :
    (stepSwing s c i).2.length ≤ 1 ∧
      ¬(SwingActionType.OPEN_SHORT ∈ (stepSwing s c i).2.map SwingAction.type ∧
        SwingActionType.OPEN_LONG ∈ (stepSwing s c i).2.map SwingAction.type) := by
  have hlen : (stepSwing s c i).2.length ≤ 1 := by
    cases hrsi : i.rsi with
    | none => simp [stepSwing, hrsi]
    | some r =>
      simp only [stepSwing, hrsi]
      by_cases hflat : decide (|i.positionAmt| ≤ swingEPS) = true
      · simp only [hflat, if_true]
        split
        · simp
        · rename_i hguard
          omega
      · simp only [hflat, Bool.false_eq_true, if_false]
        by_cases hshort : decide (i.positionAmt < -swingEPS) = true
        · simp only [hshort, if_true]
          exact shortPositionLeg_length _ _ _ _ _
        · simp only [hshort, Bool.false_eq_true, if_false]
          by_cases hlong : decide (i.positionAmt > swingEPS) = true
          · simp only [hlong, if_true]
            exact longPositionLeg_length _ _ _ _ _
          · simp only [hlong, Bool.false_eq_true, if_false]
            simp
  refine ⟨hlen, ?_⟩
  rintro ⟨h1, h2⟩
  have hb := mem_of_length_le_one (l := (stepSwing s c i).2.map SwingAction.type)
    (by simpa using hlen) h1 h2
  exact SwingActionType.noConfusion hb

/-- C4: with a valid RSI and a short position, while `armedShortExit` is
set, `CLOSE_POSITION` is emitted exactly when the RSI crosses up through
`rsiLow` with strictly positive pnl, after which the arm is cleared; a
cross up with non-positive pnl emits nothing and keeps the arm set. -/
theorem stepSwing_short_exit_requires_profit (s : SwingState) (c : SwingLogicConfig)
    (i : SwingStepInput) (r : ℚ) (hrsi : i.rsi = some r)
    (hshort : i.positionAmt < -swingEPS) (harmed : s.armedShortExit = true) :
    ((stepSwing s c i).2 =
        [⟨SwingActionType.CLOSE_POSITION,
          "RSI exit armed below low, then crossed above low with profit"⟩] ↔
      (crossUp s.prevRsi r c.rsiLow = true ∧ 0 < i.pnl))
    ∧ (crossUp s.prevRsi r c.rsiLow = true → 0 < i.pnl →
        (stepSwing s c i).1.armedShortExit = false)
    ∧ (crossUp s.prevRsi r c.rsiLow = true → i.pnl ≤ 0 →
        (stepSwing s c i).2 = [] ∧ (stepSwing s c i).1.armedShortExit = true) := by
  have hflat := notFlat_of_short hshort
  have hshortb : decide (i.positionAmt < -swingEPS) = true := decide_eq_true hshort
  simp only [stepSwing, hrsi, hflat, hshortb, Bool.false_eq_true, if_false, if_true]
  unfold shortPositionLeg
  by_cases hcd : crossDown s.prevRsi r c.rsiLow = true
  · by_cases hcu : crossUp s.prevRsi r c.rsiLow = true
    · exact (crossDown_crossUp_incompatible hcd hcu).elim
    · simp only [hcd, if_true]
      simp_all
  · by_cases hcu : crossUp s.prevRsi r c.rsiLow = true
    · by_cases hpnl : (0 : ℚ) < i.pnl
      · simp [hcd, hcu, harmed, hpnl]
      · simp [hcd, hcu, harmed, hpnl]
    · simp [hcd, hcu, harmed]

/-- Witness for C4 at the specification's scenario: in a short position
with the exit armed and `prevRsi = 29`, a step to RSI 31 with pnl 0.01
closes, while the same step with pnl 0 does nothing and keeps the arm. -/
theorem stepSwing_short_exit_requires_profit_witness :
    ((stepSwing ⟨some 29, false, true, false, false⟩ ⟨SwingDirection.both, 70, 30⟩
        ⟨some 31, -1, 1 / 100⟩).2 =
      [⟨SwingActionType.CLOSE_POSITION,
        "RSI exit armed below low, then crossed above low with profit"⟩])
    ∧ ((stepSwing ⟨some 29, false, true, false, false⟩ ⟨SwingDirection.both, 70, 30⟩
          ⟨some 31, -1, 0⟩).2 = []
        ∧ (stepSwing ⟨some 29, false, true, false, false⟩ ⟨SwingDirection.both, 70, 30⟩
            ⟨some 31, -1, 0⟩).1.armedShortExit = true) := by
  constructor
  · exact (stepSwing_short_exit_requires_profit _ _ _ 31 rfl (by norm_num [swingEPS]) rfl).1.mpr
      ⟨by norm_num [crossUp], by norm_num⟩
  · exact (stepSwing_short_exit_requires_profit _ _ _ 31 rfl (by norm_num [swingEPS]) rfl).2.2
      (by norm_num [crossUp]) le_rfl

/-- C7: with a valid RSI and a non-flat position, `stepSwing` clears
both entry arms, and its whole output is independent of the configured
`direction` (exits are evaluated even when the direction disallows the
position's side). -/
theorem stepSwing_nonflat_clears_entries_direction_free (s : SwingState)
    (c1 c2 : SwingLogicConfig) (i : SwingStepInput) (r : ℚ)
    (hrsi : i.rsi = some r) (hpos : swingEPS < |i.positionAmt|) :
    ((stepSwing s c1 i).1.armedShortEntry = false ∧
      (stepSwing s c1 i).1.armedLongEntry = false)
    ∧ (c1.rsiHigh = c2.rsiHigh → c1.rsiLow = c2.rsiLow →
        stepSwing s c1 i = stepSwing s c2 i) := by
  have hflat := notFlat_of_nonflat hpos
  constructor
  · simp only [stepSwing, hrsi, hflat, Bool.false_eq_true, if_false]
    by_cases hshort : decide (i.positionAmt < -swingEPS) = true
    · simp only [hshort, if_true]
      unfold shortPositionLeg
      split_ifs <;> try simp_all
      all_goals (split_ifs <;> simp_all)
    · simp only [hshort, Bool.false_eq_true, if_false]
      by_cases hlong : decide (i.positionAmt > swingEPS) = true
      · simp only [hlong, if_true]
        unfold longPositionLeg
        split_ifs <;> try simp_all
        all_goals (split_ifs <;> simp_all)
      · simp only [hlong, Bool.false_eq_true, if_false]
        exact ⟨trivial, trivial⟩
  · intro h1 h2
    simp only [stepSwing, hrsi, hflat, Bool.false_eq_true, if_false, h1, h2]

/-- Witness for C7 at the specification's scenario: from a flat state
with `armedShortEntry = true`, a step with `positionAmt = -1` clears
both entry arms, emits no action, and a direction change from short to
long makes no difference. -/
theorem stepSwing_nonflat_clears_entries_direction_free_witness :
    ((stepSwing ⟨some 71, true, false, false, false⟩ ⟨SwingDirection.short, 70, 30⟩
        ⟨some 71, -1, 0⟩).1.armedShortEntry = false
      ∧ (stepSwing ⟨some 71, true, false, false, false⟩ ⟨SwingDirection.short, 70, 30⟩
          ⟨some 71, -1, 0⟩).1.armedLongEntry = false)
    ∧ stepSwing ⟨some 71, true, false, false, false⟩ ⟨SwingDirection.short, 70, 30⟩
        ⟨some 71, -1, 0⟩ =
      stepSwing ⟨some 71, true, false, false, false⟩ ⟨SwingDirection.long, 70, 30⟩
        ⟨some 71, -1, 0⟩
    ∧ (stepSwing ⟨some 71, true, false, false, false⟩ ⟨SwingDirection.short, 70, 30⟩
        ⟨some 71, -1, 0⟩).2 = [] := by
  refine ⟨?_, ?_, ?_⟩
  · exact (stepSwing_nonflat_clears_entries_direction_free _ _
      ⟨SwingDirection.long, 70, 30⟩ _ 71 rfl (by norm_num [swingEPS])).1
  · exact (stepSwing_nonflat_clears_entries_direction_free _ _ _ _ 71 rfl
      (by norm_num [swingEPS])).2 rfl rfl
  · norm_num [stepSwing, shortPositionLeg, crossDown, crossUp, swingEPS]

/-! ## Depth tracker, health, stop-loss and engine claim theorems -/

theorem eventApplies_eq_true {s : DepthState} {e : DepthUpdateEvent} :
    eventApplies s e = true ↔
      s.localLastUpdateId ≠ 0 ∧ s.localLastUpdateId ≤ e.u ∧ e.U ≤ s.localLastUpdateId + 1 := by
  simp [eventApplies, and_assoc]

theorem applyDepthEvent_of_applies {s : DepthState} {e : DepthUpdateEvent}
    (h : eventApplies s e = true) :
    applyDepthEvent s e =
      (true,
        { s with
          bidBook := applyLevels s.bidBook e.bids
          askBook := applyLevels s.askBook e.asks
          localLastUpdateId := e.u }) := by
  rcases eventApplies_eq_true.mp h with ⟨h1, h2, h3⟩
  rw [applyDepthEvent, if_neg h1, if_neg (by omega), if_neg (by omega)]

/-- C2 (amended): `applyDepthEvent` reports a gap (`applied = false`)
exactly when `local = 0`, or `local ≤ u` and `local + 1 < U`; an event
with `u < local` (and `local ≠ 0`) is ignored unchanged; the levels are
applied and `local` set to `u` exactly when `local ≠ 0 ∧ local ≤ u ∧
U ≤ local + 1` — in particular also when `u = local`, which the original
claim called a no-op; on a gap while ready, `handlePayload` marks the
book not ready and re-buffers just this event (the resync trigger);
re-applying the event that was just applied leaves the book mapping and
`local` unchanged (a true duplicate is a no-op). -/
theorem applyDepthEvent_characterization (s : DepthState) (e : DepthUpdateEvent) :
    ((applyDepthEvent s e).1 = false ↔
      s.localLastUpdateId = 0 ∨ (s.localLastUpdateId ≤ e.u ∧ s.localLastUpdateId + 1 < e.U))
    ∧ (s.localLastUpdateId ≠ 0 → e.u < s.localLastUpdateId → applyDepthEvent s e = (true, s))
    ∧ (eventApplies s e = true →
        applyDepthEvent s e =
          (true,
            { s with
              bidBook := applyLevels s.bidBook e.bids
              askBook := applyLevels s.askBook e.asks
              localLastUpdateId := e.u }))
    ∧ ((applyDepthEvent s e).1 = false → s.orderBookReady = true →
        handleDepthPayload s e = { s with orderBookReady := false, eventBuffer := [e] })
    ∧ (eventApplies s e = true →
        (applyDepthEvent (applyDepthEvent s e).2 e).1 = true ∧
          (applyDepthEvent (applyDepthEvent s e).2 e).2.localLastUpdateId =
            (applyDepthEvent s e).2.localLastUpdateId ∧
          ∀ x,
            bookLookup (applyDepthEvent (applyDepthEvent s e).2 e).2.bidBook x =
                bookLookup (applyDepthEvent s e).2.bidBook x ∧
              bookLookup (applyDepthEvent (applyDepthEvent s e).2 e).2.askBook x =
                bookLookup (applyDepthEvent s e).2.askBook x) := by
  refine ⟨?_, ?_, applyDepthEvent_of_applies, ?_, ?_⟩
  · unfold applyDepthEvent
    split_ifs with h1 h2 h3 <;> simp <;> omega
  · intro h1 h2
    rw [applyDepthEvent, if_neg h1, if_pos h2]
  · intro hfail hready
    have hkeep : (applyDepthEvent s e).2 = s := by
      unfold applyDepthEvent at hfail ⊢
      split_ifs at hfail ⊢ <;> simp_all
    simp [handleDepthPayload, hready, hfail, hkeep]
  · intro happ
    rcases eventApplies_eq_true.mp happ with ⟨h1, h2, h3⟩
    rw [applyDepthEvent_of_applies happ]
    have happ2 : eventApplies
        { s with
          bidBook := applyLevels s.bidBook e.bids
          askBook := applyLevels s.askBook e.asks
          localLastUpdateId := e.u } e = true := by
      rw [eventApplies_eq_true]
      refine ⟨by simp; omega, by simp, by simp; omega⟩
    rw [applyDepthEvent_of_applies happ2]
    refine ⟨rfl, rfl, fun x => ⟨?_, ?_⟩⟩
    · exact applyLevels_idem s.bidBook e.bids x
    · exact applyLevels_idem s.askBook e.asks x



/-- When `applyDepthEvent` does not take the level-applying branch, the
state is returned untouched. -/
theorem applyDepthEvent_keeps_state_of_not_applied {s : DepthState} {e : DepthUpdateEvent}
    (h : eventApplies s e = false) : (applyDepthEvent s e).2 = s := by
  rw [eventApplies] at h
  unfold applyDepthEvent
  split_ifs <;> first | rfl | (exfalso; simp_all)

/-- `applyDepthEvent` never decreases `localLastUpdateId`. -/
theorem applyDepthEvent_mono (s : DepthState) (e : DepthUpdateEvent) :
    s.localLastUpdateId ≤ (applyDepthEvent s e).2.localLastUpdateId := by
  unfold applyDepthEvent
  split_ifs <;> simp <;> omega

/-- The periodic resync (`refreshOrderBookFromSnapshot`) never decreases
`localLastUpdateId`: a snapshot older than the local book is discarded. -/
theorem refresh_mono (s : DepthState) (fetch : Option DepthSnapshotResponse) :
    s.localLastUpdateId ≤ (refreshOrderBookFromSnapshot s fetch).localLastUpdateId := by
  unfold refreshOrderBookFromSnapshot
  cases fetch with
  | none => exact le_rfl
  | some snap =>
    show s.localLastUpdateId ≤
      (if snap.lastUpdateId < s.localLastUpdateId then s
        else { resetOrderBook s snap with orderBookReady := true }).localLastUpdateId
    split_ifs with h
    · exact le_rfl
    · simp [resetOrderBook]
      omega

/-- After a gap-free sequence of applied events, `localLastUpdateId`
equals the last event's `u`. -/
theorem applyEventsSeq_last_u :
    ∀ (es : List DepthUpdateEvent) (s : DepthState) (last : DepthUpdateEvent),
      chainApplies s es = true → es.getLast? = some last →
      (applyEventsSeq s es).localLastUpdateId = last.u := by
  intro es
  induction es with
  | nil =>
    intro s last h hl
    cases hl
  | cons e t ih =>
    intro s last h hl
    rw [chainApplies, Bool.and_eq_true] at h
    cases t with
    | nil =>
      have hle : e = last := by simpa using hl
      subst hle
      show (applyDepthEvent s e).2.localLastUpdateId = e.u
      rw [applyDepthEvent_of_applies h.1]
    | cons e2 t2 =>
      have hl2 : (e2 :: t2).getLast? = some last := by
        rw [← hl]
        exact (List.getLast?_cons_cons ..).symm
      exact ih _ _ h.2 hl2




/-- C5 (amended): whenever `emitDepthSnapshot` publishes a snapshot,
both best prices exist, are positive, and the best bid is at most the
best ask (the guard skips emission only when `bestAsk < bestBid`, so
equality still emits; and the internal book itself can be crossed while
`orderBookReady` is true, see the counterexample). -/
theorem emitDepthSnapshot_best_price_guard (opts : DepthTrackerOptions) (s : DepthState)
    (snap : EmittedDepthSnapshot) (h : emitDepthSnapshot opts s = some snap) :
    ∃ bestBid bestAsk,
      findBestPrice s.bidBook BookSide.bid = some bestBid ∧
        findBestPrice s.askBook BookSide.ask = some bestAsk ∧
        0 < bestBid ∧ 0 < bestAsk ∧ bestBid ≤ bestAsk := by
  unfold emitDepthSnapshot at h
  cases hb : findBestPrice s.bidBook BookSide.bid with
  | none => rw [hb] at h; cases h
  | some bb =>
    cases ha : findBestPrice s.askBook BookSide.ask with
    | none => rw [hb, ha] at h; cases h
    | some ba =>
      rw [hb, ha] at h
      dsimp only at h
      by_cases hguard : bb ≤ 0 ∨ ba ≤ 0 ∨ ba < bb
      · rw [if_pos hguard] at h
        cases h
      · push_neg at hguard
        exact ⟨bb, ba, rfl, rfl, hguard.1, hguard.2.1, hguard.2.2⟩

/-- C9: for every emitted depth snapshot, with effective ratio
`R = max(1.01, configured ratio)`, `skipSellSide` holds iff
`sellSum = 0` or `buySum > sellSum * R`, `skipBuySide` holds iff
`buySum = 0` or `sellSum > buySum * R`, and exchanging the two sums
exchanges the two flags. -/
theorem emitDepthSnapshot_skip_flags (opts : DepthTrackerOptions) (s : DepthState)
    (snap : EmittedDepthSnapshot) (h : emitDepthSnapshot opts s = some snap) :
    (snap.skipSellSide = true ↔
      (snap.sellSum = 0 ∨
        snap.buySum > snap.sellSum * max (101 / 100) (opts.ratio.getD defaultImbalanceRatio)))
    ∧ (snap.skipBuySide = true ↔
      (snap.buySum = 0 ∨
        snap.sellSum > snap.buySum * max (101 / 100) (opts.ratio.getD defaultImbalanceRatio)))
    ∧ ∀ a b r : ℚ, skipSellSideFlag a b r = skipBuySideFlag b a r := by
  unfold emitDepthSnapshot at h
  cases hb : findBestPrice s.bidBook BookSide.bid with
  | none => rw [hb] at h; cases h
  | some bb =>
    cases ha : findBestPrice s.askBook BookSide.ask with
    | none => rw [hb, ha] at h; cases h
    | some ba =>
      rw [hb, ha] at h
      dsimp only at h
      by_cases hguard : bb ≤ 0 ∨ ba ≤ 0 ∨ ba < bb
      · rw [if_pos hguard] at h
        cases h
      · rw [if_neg hguard] at h
        injection h with hsnap
        subst hsnap
        refine ⟨?_, ?_, fun a b r => rfl⟩
        · simp [skipSellSideFlag]
        · simp [skipBuySideFlag]

/-- C2 counterexample: at `localLastUpdateId = 5`, the event
`(U = 5, u = 5, bids = [(1, 2)])` satisfies the claim's duplicate
condition `u ≤ local`, yet the code applies its levels: the bid book
changes from `[]` to `[(1, 2)]`, so the step is not a no-op (and it is
applied although `U ≤ local + 1 ≤ u` fails). -/
theorem applyDepthEvent_duplicate_not_noop_cex :
    dupCexEvent.u ≤ dupCexState.localLastUpdateId ∧
      (applyDepthEvent dupCexState dupCexEvent).1 = true ∧
      (applyDepthEvent dupCexState dupCexEvent).2.bidBook = [(1, 2)] ∧
      dupCexState.bidBook = [] := by
  refine ⟨by decide, by decide, by decide, rfl⟩

/-- C6 counterexample: a reachable state with `localLastUpdateId = 100`
(bootstrapped, then disconnected, then one small-sequence event
buffered) from which a bootstrap with a snapshot at `lastUpdateId = 8`
lowers `localLastUpdateId` to 8: the tracker operation is not
monotone. -/
theorem bootstrap_lowers_localLastUpdateId_cex :
    DepthReachable lowerDepthState ∧
      lowerDepthState.localLastUpdateId = 100 ∧
      (ensureSynced lowerDepthState [some lowerSnap2]).localLastUpdateId = 8 ∧
      (8 : ℕ) < 100 := by
  refine ⟨?_, by decide, by decide, by norm_num⟩
  exact DepthReachable.live _ _
    (DepthReachable.wsReset _
      (DepthReachable.sync _ _ (DepthReachable.live _ _ DepthReachable.init)))

/-- C5 counterexample: a reachable tracker state (buffer one live
event, bootstrap from a snapshot with bid 100 / ask 101, then apply a
live diff adding a bid at 102) that is ready, has both sides non-empty,
and whose best bid 102 is not below its best ask 101. -/
theorem ready_book_best_prices_crossed_cex :
    DepthReachable crossedDepthState ∧
      crossedDepthState.orderBookReady = true ∧
      crossedDepthState.bidBook ≠ [] ∧
      crossedDepthState.askBook ≠ [] ∧
      findBestPrice crossedDepthState.bidBook BookSide.bid = some 102 ∧
      findBestPrice crossedDepthState.askBook BookSide.ask = some 101 ∧
      ¬((102 : ℚ) < 101) := by
  refine ⟨?_, by decide, by decide, by decide, by decide, by decide, by norm_num⟩
  exact DepthReachable.live _ _
    (DepthReachable.sync _ _ (DepthReachable.live _ _ DepthReachable.init))

/-- C10: `getHealth` on a tracker that is not started (never started or
stopped) reports `healthy = true`, `reason = none`, `connected = false`,
`orderBookReady = false` and `restHealthy = true` regardless of the
accumulated REST failures, staleness or connection state; consequently
only a started tracker can report `healthy = false`. -/
theorem getHealth_not_started (s : HealthFields) :
    (s.started = false →
      getHealth s =
        { started := false, connected := false, orderBookReady := false, restHealthy := true,
          healthy := true, reason := none, lastEventAt := s.lastEventAt,
          lastSnapshotAt := s.lastSnapshotAt, lastRestSyncAt := s.lastRestSyncAt,
          localLastUpdateId := s.localLastUpdateId })
    ∧ ((getHealth s).healthy = false → s.started = true) := by
  constructor
  · intro h
    rw [getHealth, if_pos h]
  · intro h
    by_cases hs : s.started = false
    · rw [getHealth, if_pos hs] at h
      cases h
    · simpa using hs

/-- Witness for C10: a stopped tracker with seven REST failures, a
stale book and a disconnected socket still reports healthy. -/
theorem getHealth_not_started_witness :
    getHealth ⟨false, BinanceConnectionState.disconnected, true, 7, some "boom", true, 1, 2, 3, 9⟩ =
      ⟨false, false, false, true, true, none, 1, 2, 3, 9⟩ :=
  (getHealth_not_started _).1 rfl

/-- C1 (amended): for a non-flat position whose entry price has
magnitude above `1e-8`, a finite reference price on the kill side of
`stopPrice ± tick` makes `handleStopLoss` issue the market close
immediately — for any set of open orders (so independently of any
exchange-side stop order) — and in particular it never places a stop
order on that call. -/
theorem handleStopLoss_kill_switch (settings : StopLossSettings) (orders : List StopOrderInfo)
    (att : StopAttempt) (now : ℚ) (pos : PositionSnapshot) (r : ℚ) (ticker : Option ℚ)
    (hpos : engineEPS < |pos.positionAmt|)
    (hentry : 1 / 100000000 < |pos.entryPrice|)
    (htrigger :
      if pos.positionAmt > 0 then
        r ≤ pos.entryPrice * (1 - max 0 settings.stopLossPct) +
          max (1 / 1000000000) settings.priceTick
      else
        pos.entryPrice * (1 + max 0 settings.stopLossPct) -
          max (1 / 1000000000) settings.priceTick ≤ r) :
    (handleStopLoss settings orders att now pos (some r) ticker).1 =
      StopLossOutcome.killSwitchClose ∧
    ∀ side sp qty,
      (handleStopLoss settings orders att now pos (some r) ticker).1 ≠
        StopLossOutcome.placeStop side sp qty := by
  have h1 : ¬(|pos.positionAmt| ≤ engineEPS) := not_le.mpr hpos
  have h2 : ¬(|pos.entryPrice| ≤ 1 / 100000000) := not_le.mpr hentry
  have hres : (handleStopLoss settings orders att now pos (some r) ticker).1 =
      StopLossOutcome.killSwitchClose := by
    unfold handleStopLoss
    rw [if_neg h1, if_neg h2]
    by_cases hlong : pos.positionAmt > 0
    · rw [if_pos hlong] at htrigger
      have hl : decide (pos.positionAmt > 0) = true := decide_eq_true hlong
      simp only [hl, if_true, decide_eq_true_eq]
      rw [if_pos htrigger]
    · rw [if_neg hlong] at htrigger
      have hl : decide (pos.positionAmt > 0) = false := decide_eq_false hlong
      simp only [hl, Bool.false_eq_true, if_false, ge_iff_le, decide_eq_true_eq]
      rw [if_pos htrigger]
  exact ⟨hres, fun side sp qty => by rw [hres]; intro hc; cases hc⟩

/-- Witness for C1, the specification's scenario: long position, entry
100, `stopLossPct = 0.05`, tick 0.1, reference 95.05, and an
exchange-side stop order already open: the kill switch still closes. -/
theorem handleStopLoss_kill_switch_witness :
    (handleStopLoss ⟨5 / 100, 1 / 10⟩ [⟨OrderSide.SELL, "STOP_MARKET", some 95⟩]
        ⟨none, none, 0⟩ 0 ⟨1, 100, 0, 0⟩ (some (9505 / 100)) none).1 =
      StopLossOutcome.killSwitchClose := by
  exact (handleStopLoss_kill_switch _ _ _ _ _ _ _ (by norm_num [engineEPS]) (by norm_num)
    (by norm_num)).1

/-- C1 counterexample: a long position with the non-zero entry price
`1e-9` and a reference price satisfying the claim's trigger condition is
returned at the `hasEntryPrice` guard (`|entry| > 1e-8` fails), so no
market close is issued although the claim requires one for every
non-zero entry price. -/
theorem handleStopLoss_tiny_entry_cex :
    ((1 : ℚ) / 1000000000 ≠ 0) ∧
    engineEPS < |(1 : ℚ)| ∧
    ((5 : ℚ) / 100 ≤ (1 / 1000000000 : ℚ) * (1 - max 0 (5 / 100)) + max (1 / 1000000000) (1 / 10)) ∧
    (handleStopLoss ⟨5 / 100, 1 / 10⟩ [] ⟨none, none, 0⟩ 0 ⟨1, 1 / 1000000000, 0, 0⟩
        (some (5 / 100)) none).1 = StopLossOutcome.missingEntryPrice := by
  refine ⟨by norm_num, by norm_num [engineEPS], by norm_num, ?_⟩
  have hsmall : |(1 : ℚ) / 1000000000| ≤ 1 / 100000000 := by
    rw [abs_of_pos] <;> norm_num
  norm_num [handleStopLoss, engineEPS, hsmall]

/-- C8 (amended): an account snapshot with `marketType = "spot"` under
direction short or both sets `disabled` and records the error; no engine
operation ever clears `disabled`; and a disabled engine's tick never
evaluates the swing logic nor reaches the order paths, emitting a
snapshot exactly when the tick is not re-entrant and the rate-limit
decision is not `skip` (on `skip` the source returns without
emitting). -/
theorem spot_guard_permanence (cfg : SwingEngineConfig) (s : EngineState)
    (marketType : Option String) (op : EngineOp) (processing : Bool)
    (decision : RateDecision) (oracle : TickOracle) :
    (marketType = some "spot" →
      (cfg.direction = SwingDirection.short ∨ cfg.direction = SwingDirection.both) →
      (onAccountSnapshot cfg s marketType).disabled = true ∧
        (s.disabled = false →
          (onAccountSnapshot cfg s marketType).lastError = some spotGuardMessage))
    ∧ (s.disabled = true → (stepEngine cfg s op).disabled = true)
    ∧ (s.disabled = true →
        (tick cfg s processing decision oracle).2.evaluatedSwing = false ∧
          (tick cfg s processing decision oracle).2.reachedOrderPaths = false ∧
          ((tick cfg s processing decision oracle).2.emittedSnapshot = true ↔
            processing = false ∧ decision ≠ RateDecision.skip)) := by
  have htick : ∀ (s2 : EngineState), s2.disabled = true →
      (tick cfg s2 processing decision oracle).2.evaluatedSwing = false ∧
        (tick cfg s2 processing decision oracle).2.reachedOrderPaths = false ∧
        ((tick cfg s2 processing decision oracle).2.emittedSnapshot = true ↔
          processing = false ∧ decision ≠ RateDecision.skip) ∧
        (tick cfg s2 processing decision oracle).1 = s2 := by
    intro s2 hdis
    unfold tick
    by_cases hp : processing
    · simp [hp]
    · simp only [hp, Bool.false_eq_true, if_false]
      cases decision with
      | paused => simp
      | skip => simp
      | run => simp [hdis]
  refine ⟨?_, ?_, fun hdis => ⟨(htick s hdis).1, (htick s hdis).2.1, (htick s hdis).2.2.1⟩⟩
  · intro hmt hdir
    unfold onAccountSnapshot
    rw [if_pos ⟨hmt, hdir⟩]
    by_cases hd : s.disabled = false
    · simp [hd]
    · rw [Bool.not_eq_false] at hd
      simp [hd]
  · intro hdis
    cases op with
    | account marketType =>
      show (onAccountSnapshot cfg s marketType).disabled = true
      unfold onAccountSnapshot
      split_ifs <;> simp_all
    | ordersUpdate => exact hdis
    | depthUpdate => exact hdis
    | tickerUpdate => exact hdis
    | rsiUpdate stable value => exact hdis
    | tickOp processing2 decision2 oracle2 =>
      show (tick cfg s processing2 decision2 oracle2).1.disabled = true
      unfold tick
      by_cases hp : processing2
      · simp [hp, hdis]
      · simp only [hp, Bool.false_eq_true, if_false]
        cases decision2 with
        | paused => simp [hdis]
        | skip => simp [hdis]
        | run => simp [hdis]

/-- Witness for C8: the spot guard fires on a concrete snapshot, stays
disabled across an operation, and a run-decision tick emits a snapshot
without evaluating the swing logic. -/
theorem spot_guard_permanence_witness :
    spotDisabledState.disabled = true ∧
      spotDisabledState.lastError = some spotGuardMessage ∧
      (stepEngine spotCfg spotDisabledState EngineOp.ordersUpdate).disabled = true ∧
      (tick spotCfg spotDisabledState false RateDecision.run ⟨0, 0⟩).2.evaluatedSwing = false ∧
      (tick spotCfg spotDisabledState false RateDecision.run ⟨0, 0⟩).2.emittedSnapshot = true := by
  have hd : spotDisabledState.disabled = true :=
    ((spot_guard_permanence spotCfg initialEngineState (some "spot") EngineOp.ordersUpdate
        false RateDecision.run ⟨0, 0⟩).1 rfl (Or.inl rfl)).1
  refine ⟨hd, ?_, ?_, ?_, ?_⟩
  · exact ((spot_guard_permanence spotCfg initialEngineState (some "spot") EngineOp.ordersUpdate
      false RateDecision.run ⟨0, 0⟩).1 rfl (Or.inl rfl)).2 rfl
  · exact (spot_guard_permanence spotCfg spotDisabledState (some "spot") EngineOp.ordersUpdate
      false RateDecision.run ⟨0, 0⟩).2.1 hd
  · exact ((spot_guard_permanence spotCfg spotDisabledState (some "spot") EngineOp.ordersUpdate
      false RateDecision.run ⟨0, 0⟩).2.2 hd).1
  · exact (((spot_guard_permanence spotCfg spotDisabledState (some "spot") EngineOp.ordersUpdate
      false RateDecision.run ⟨0, 0⟩).2.2 hd).2.2).mpr ⟨rfl, by simp⟩

/-- C8 counterexample: on the disabled engine a tick whose rate-limit
decision is `skip` returns without emitting a snapshot, contradicting
the claim that every subsequent tick returns after emitting one. -/
theorem tick_disabled_skip_no_snapshot_cex :
    spotDisabledState.disabled = true ∧
      (tick spotCfg spotDisabledState false RateDecision.skip ⟨0, 0⟩).2.emittedSnapshot = false ∧
      (tick spotCfg spotDisabledState false RateDecision.skip ⟨0, 0⟩).2.evaluatedSwing = false := by
  refine ⟨by decide, by decide, by decide⟩

/-- Witness for C2: a concrete applying event, and a concrete stale
event that is ignored unchanged. -/
theorem applyDepthEvent_characterization_witness :
    applyDepthEvent ⟨[], [], 5, true, []⟩ ⟨6, 7, [(1, 2)], []⟩ =
      (true, ⟨applyLevels [] [(1, 2)], applyLevels [] [], 7, true, []⟩) ∧
      applyDepthEvent ⟨[], [], 5, true, []⟩ ⟨1, 3, [(1, 2)], []⟩ = (true, ⟨[], [], 5, true, []⟩) := by
  constructor
  · exact (applyDepthEvent_characterization ⟨[], [], 5, true, []⟩ ⟨6, 7, [(1, 2)], []⟩).2.2.1
      (by decide)
  · exact (applyDepthEvent_characterization ⟨[], [], 5, true, []⟩ ⟨1, 3, [(1, 2)], []⟩).2.1
      (by decide) (by decide)

/-- C6 (amended): `localLastUpdateId` never decreases under diff-event
application or periodic resync, and after a gap-free sequence of applied
events it equals the last event's `u`.  (Bootstrap, by contrast, can
lower it after a reconnect — see the counterexample.) -/
theorem localLastUpdateId_monotone (s : DepthState) (e : DepthUpdateEvent)
    (fetch : Option DepthSnapshotResponse) (es : List DepthUpdateEvent)
    (last : DepthUpdateEvent) :
    s.localLastUpdateId ≤ (applyDepthEvent s e).2.localLastUpdateId
    ∧ s.localLastUpdateId ≤ (refreshOrderBookFromSnapshot s fetch).localLastUpdateId
    ∧ (chainApplies s es = true → es.getLast? = some last →
        (applyEventsSeq s es).localLastUpdateId = last.u) :=
  ⟨applyDepthEvent_mono s e, refresh_mono s fetch, applyEventsSeq_last_u es s last⟩

/-- Witness for C6: a concrete gap-free two-event run ending at
`localLastUpdateId = 9`. -/
theorem localLastUpdateId_monotone_witness :
    chainApplies ⟨[], [], 5, true, []⟩ [⟨5, 6, [], []⟩, ⟨7, 9, [], []⟩] = true ∧
      (applyEventsSeq ⟨[], [], 5, true, []⟩ [⟨5, 6, [], []⟩, ⟨7, 9, [], []⟩]).localLastUpdateId =
        9 := by
  refine ⟨by decide, ?_⟩
  exact (localLastUpdateId_monotone ⟨[], [], 5, true, []⟩ ⟨0, 0, [], []⟩ none
    [⟨5, 6, [], []⟩, ⟨7, 9, [], []⟩] ⟨7, 9, [], []⟩).2.2 (by decide) (by decide)

/-- Witness for C5: a concrete emission on an uncrossed book. -/
theorem emitDepthSnapshot_best_price_guard_witness :
    emitDepthSnapshot defaultDepthOptions emitWitnessState =
      some ⟨2, 1, false, false, "balanced", 9, 3⟩ ∧
      ∃ bestBid bestAsk,
        findBestPrice emitWitnessState.bidBook BookSide.bid = some bestBid ∧
          findBestPrice emitWitnessState.askBook BookSide.ask = some bestAsk ∧
          0 < bestBid ∧ 0 < bestAsk ∧ bestBid ≤ bestAsk := by
  have h : emitDepthSnapshot defaultDepthOptions emitWitnessState =
      some ⟨2, 1, false, false, "balanced", 9, 3⟩ := by
    norm_num [emitDepthSnapshot, findBestPrice, defaultDepthOptions, emitWitnessState,
      DEFAULT_DEPTH_WINDOW_BPS, defaultImbalanceRatio, skipSellSideFlag, skipBuySideFlag]
  exact ⟨h, emitDepthSnapshot_best_price_guard defaultDepthOptions emitWitnessState _ h⟩

/-- Witness for C9: a concrete emission whose buy side dominates, with
the flag formulas evaluated through the theorem. -/
theorem emitDepthSnapshot_skip_flags_witness :
    emitDepthSnapshot defaultDepthOptions skewedWitnessState =
      some ⟨5, 1, false, true, "buy_dominant", 9, 4⟩ ∧
      (⟨5, 1, false, true, "buy_dominant", 9, 4⟩ : EmittedDepthSnapshot).skipSellSide = true ∧
      skipSellSideFlag 5 1 2 = skipBuySideFlag 1 5 2 := by
  have h : emitDepthSnapshot defaultDepthOptions skewedWitnessState =
      some ⟨5, 1, false, true, "buy_dominant", 9, 4⟩ := by
    norm_num [emitDepthSnapshot, findBestPrice, defaultDepthOptions, skewedWitnessState,
      DEFAULT_DEPTH_WINDOW_BPS, defaultImbalanceRatio, skipSellSideFlag, skipBuySideFlag]
  refine ⟨h, ?_, (emitDepthSnapshot_skip_flags defaultDepthOptions skewedWitnessState _ h).2.2 5 1 2⟩
  exact (emitDepthSnapshot_skip_flags defaultDepthOptions skewedWitnessState _ h).1.mpr
    (Or.inr (by norm_num [defaultImbalanceRatio, defaultDepthOptions]))

end RitmexBot
